import Mathlib

/-!
Verification of the pure-Python layer of python-igraph (package/__init__.py):
format resolution and dispatch, the SVG/Cairo rendering pipeline, and the
gzipped-GraphML adapter.  Machine integers do not occur at this layer; Python
numbers are modelled as `ℚ` (exact layout arithmetic) or `ℝ` (trigonometry),
Python sequences as `List`, and fallible code as `Option`/`Except`.
-/

namespace IGraph

/-! ## Format resolution (`Graph._identify_format`, lines 739-794)

`os.path.splitext` is Python standard library (an external collaborator), so
the extension is taken as an input here; the rest follows the source. -/

/-- Python's `str.lower()` (ASCII case folding suffices here). -/
def pyLower (s : String) : String :=
  String.mk (s.data.map Char.toLower)

/-- Python's `s[1:]`: drop the first character. -/
def dropDot (s : String) : String :=
  String.mk s.data.tail

/-- Python's `c in s` membership test for a single character. -/
def pyContains (s : String) (c : Char) : Bool :=
  s.data.contains c

/-- Splitting a character list on whitespace, dropping empty fields
(`cur` is the reversed field being accumulated). -/
def splitWSAux (cs : List Char) (cur : List Char) : List (List Char) :=
  match cs with
  | [] => if cur.isEmpty then [] else [cur.reverse]
  | c :: rest =>
    if c.isWhitespace then
      if cur.isEmpty then splitWSAux rest [] else cur.reverse :: splitWSAux rest []
    else splitWSAux rest (c :: cur)

/-- Python's `line.strip().split()`: split on whitespace, dropping empty
fields (stripping is subsumed because empty fields are dropped). -/
def pySplit (s : String) : List String :=
  (splitWSAux s.data []).map String.mk

/-- Splitting a character list on one separator, keeping empty fields. -/
def splitCharAux (sep : Char) (cs : List Char) (cur : List Char) : List (List Char) :=
  match cs with
  | [] => [cur.reverse]
  | c :: rest =>
    if c = sep then cur.reverse :: splitCharAux sep rest []
    else splitCharAux sep rest (c :: cur)

/-- Python's `s.split(sep)` for one separator character: keeps empty
fields. -/
def pySplitOn (s : String) (sep : Char) : List String :=
  (splitCharAux sep s.data []).map String.mk

/-- A whitespace-separated field consisting only of ASCII digits. -/
def isNumericField (s : String) : Bool :=
  s ≠ "" && s.data.all Char.isDigit

/-- Python 2 `file.readline()`: the i-th line of the file, or `""` at end of
file (`readline` never returns `None`, so the source's `if line is None`
branches are dead code and are not modelled). -/
def readline (content : List String) (i : Nat) : String :=
  content.getD i ""

/-- The static extension table of `_identify_format` (lines 764-766). -/
def extensionTable : List String :=
  [".graphml", ".graphmlz", ".lgl", ".ncol", ".pajek", ".gml", ".dimacs",
   ".edgelist", ".edges", ".edge", ".net", ".pickle"]

/-- Embedding of `Graph._identify_format` after `os.path.splitext`: `ext` is the extension
(with leading dot), `content` the lines of the file, consulted only in the
`.txt`/`.dat` sniffing branch.  Returns the format token or `none` (the
source returns `None`, which makes the unified Read/write raise). -/
def identifyFormat (ext : String) (content : List String) : Option String :=
  if pyLower ext ∈ extensionTable then some (dropDot (pyLower ext))
  else if pyLower ext = ".txt" ∨ pyLower ext = ".dat" then
    if (pySplit (readline content 0)).length = 2 then
      if (pySplit (readline content 1)).length = 2 then
        if (pySplit (readline content 2)).length = 0 then none
        else some "edges"
      else none
    else some "adjacency"
  else none

/-! ## Dispatch (`Graph._format_mapping`, `Graph.Read`, `Graph.write`) -/

/-- Embedding of `Graph._format_mapping` (lines 1153-1169): reader and writer method names
per format token; `none` in a slot is the source's `None`. -/
def formatMapping : String → Option (Option String × Option String)
  | "ncol" => some (some "Read_Ncol", some "write_ncol")
  | "lgl" => some (some "Read_Lgl", some "write_lgl")
  | "graphmlz" => some (some "Read_GraphMLz", some "write_graphmlz")
  | "graphml" => some (some "Read_GraphML", some "write_graphml")
  | "gml" => some (some "Read_GML", some "write_gml")
  | "net" => some (some "Read_Pajek", none)
  | "pajek" => some (some "Read_Pajek", none)
  | "dimacs" => some (some "Read_DIMACS", some "write_dimacs")
  | "adjacency" => some (some "Read_Adjacency", some "write_adjacency")
  | "adj" => some (some "Read_Adjacency", some "write_adjacency")
  | "edgelist" => some (some "Read_Edgelist", some "write_edgelist")
  | "edge" => some (some "Read_Edgelist", some "write_edgelist")
  | "edges" => some (some "Read_Edgelist", some "write_edgelist")
  | "pickle" => some (some "Read_Pickle", some "write_pickle")
  | "svg" => some (none, some "write_svg")
  | _ => none

/-- Filesystem-touching actions of the dispatch layer: invoking a codec on
the target file.  An error result comes with an empty action list. -/
inductive FsOp
  | invokeReader (name : String)
  | invokeWriter (name : String)
  deriving DecidableEq

/-- Embedding of `Graph.write` (lines 831-862): resolve the format (explicit override or
`_identify_format`), look up the writer slot, and either invoke it on the
target or raise `IOError` without touching the target. -/
def graphWrite (format : Option String) (ext : String) (content : List String) :
    List FsOp × Except String String :=
  match (match format with
         | some f => some f
         | none => identifyFormat ext content) with
  | none => ([], Except.error "unknown file format: None")
  | some f =>
    match formatMapping f with
    | none => ([], Except.error ("unknown file format: " ++ f))
    | some (_, none) => ([], Except.error ("no writer method for file format: " ++ f))
    | some (_, some w) => ([FsOp.invokeWriter w], Except.ok w)

/-- Embedding of `Graph.Read` (lines 797-827): same routing with the reader slot. -/
def graphRead (format : Option String) (ext : String) (content : List String) :
    List FsOp × Except String String :=
  match (match format with
         | some f => some f
         | none => identifyFormat ext content) with
  | none => ([], Except.error "unknown file format: None")
  | some f =>
    match formatMapping f with
    | none => ([], Except.error ("unknown file format: " ++ f))
    | some (none, _) => ([], Except.error ("no reader method for file format: " ++ f))
    | some (some r, _) => ([FsOp.invokeReader r], Except.ok r)

/-! ## `Graph.write_svg` parameter handling (lines 557-644) -/

/-- A vertex label value: a string taken from an attribute or an explicit
list, or the integer `len(labels)+1` appended by the padding loop. -/
inductive SvgLabel
  | s (v : String)
  | n (v : Nat)
  deriving DecidableEq

/-- The `labels` parameter of `write_svg`: an attribute name, `None`, or an
explicit list (lines 608-614). -/
inductive LabelsParam
  | attrName (name : String)
  | disabled
  | explicit (l : List SvgLabel)

/-- The `colors` / `shapes` / `edge_colors` parameters of `write_svg`: an
attribute name or an explicit list (`None` is not accepted by the source for
these and would crash at a later `len` call). -/
inductive ListParam (α : Type)
  | attrName (name : String)
  | explicit (l : List α)

/-- The `font_size` parameter: a number or a raw string (lines 634-638). -/
inductive FontSize
  | num (v : ℚ)
  | str (v : String)

/-- Label resolution (lines 608-614): an attribute name falls back to the
1-based ordinals when the attribute does not exist (`KeyError` caught);
`None` gives empty strings; a list is used as-is. -/
def svgResolveLabels (labels : LabelsParam) (vattrS : String → Option (List String))
    (vc : Nat) : List SvgLabel :=
  match labels with
  | .attrName s =>
    match vattrS s with
    | some vals => vals.map SvgLabel.s
    | none => (List.range vc).map (fun x => SvgLabel.n (x + 1))
  | .disabled => List.replicate vc (SvgLabel.s "")
  | .explicit l => l

/-- Attribute-or-list resolution for `colors`, `shapes` and `edge_colors`
(lines 616-632): an attribute name falls back to `fallback` when the
attribute does not exist; a list is used as-is. -/
def svgResolveAttr {α : Type} (p : ListParam α) (attr : String → Option (List α))
    (fallback : List α) : List α :=
  match p with
  | .attrName s => (attr s).getD fallback
  | .explicit l => l

/-- Font-size handling (lines 634-638): a number is rendered as `"<n>px"`;
a string is used as-is unless it contains a semicolon, which raises
`ValueError`. -/
def resolveFontSize : FontSize → Except String String
  | .num v => Except.ok (toString v ++ "px")
  | .str s =>
    if pyContains s ';' then Except.error "font size can't contain a semicolon"
    else Except.ok s

/-- One `while len(l) < vc: l.append(f (len l))` padding loop of lines
641-642, parameterised by the appended element as a function of the current
length. -/
def padListAux {α : Type} (f : Nat → α) (l : List α) (vc : Nat) : List α :=
  if _h : l.length < vc then padListAux f (l ++ [f l.length]) vc else l
termination_by vc - l.length
decreasing_by simp; omega

/-- Line 641: `while len(labels)<vc: labels.append(len(labels)+1)`. -/
def padLabels (l : List SvgLabel) (vc : Nat) : List SvgLabel :=
  padListAux (fun n => SvgLabel.n (n + 1)) l vc

/-- Line 642: `while len(colors)<vc: colors.append("red")`. -/
def padColors (l : List String) (vc : Nat) : List String :=
  padListAux (fun _ => "red") l vc

/-- Width/height defaulting (lines 593-599): both `None` gives 400x400, one
`None` inherits the other. -/
def effectiveDims (width height : Option ℚ) : ℚ × ℚ :=
  match width, height with
  | none, none => (400, 400)
  | none, some h => (h, h)
  | some w, none => (w, w)
  | some w, some h => (w, h)

/-- The resolved drawing parameters `write_svg` holds when it starts
emitting SVG. -/
structure SvgResolved where
  width : ℚ
  height : ℚ
  labels : List SvgLabel
  colors : List String
  shapes : List Int
  edgeColors : List String
  fontSize : String

/-- File operations of `write_svg` up to the point modelled. -/
inductive SvgFileOp
  | openFile (name : String)
  deriving DecidableEq

/-- Embedding of `write_svg` from entry to `f=open(fname, "w")` (lines 593-644), with the
file operations it performed: dimension defaulting and validation, attribute
resolution, font-size validation, label/color padding, then opening the
target.  A raised `ValueError` leaves the action list empty.  (String
layouts, resolved via layout algorithms at line 604-606, are outside this
layer.) -/
def writeSvgPrelude (fname : String) (width height : Option ℚ)
    (labels : LabelsParam) (colors : ListParam String) (shapes : ListParam Int)
    (edgeColors : ListParam String) (fontSize : FontSize)
    (vattrS : String → Option (List String)) (vattrZ : String → Option (List Int))
    (eattrS : String → Option (List String)) (vc ec : Nat) :
    List SvgFileOp × Except String SvgResolved :=
  if (effectiveDims width height).1 ≤ 0 ∨ (effectiveDims width height).2 ≤ 0 then
    ([], Except.error "width and height must be positive")
  else
    match resolveFontSize fontSize with
    | Except.error e => ([], Except.error e)
    | Except.ok fs =>
      ([SvgFileOp.openFile fname],
       Except.ok
         { width := (effectiveDims width height).1
           height := (effectiveDims width height).2
           labels := padLabels (svgResolveLabels labels vattrS vc) vc
           colors := padColors (svgResolveAttr colors vattrS (List.replicate vc "red")) vc
           shapes := svgResolveAttr shapes vattrZ (List.replicate vc 1)
           edgeColors := svgResolveAttr edgeColors eattrS (List.replicate ec "black")
           fontSize := fs })

/-! ## Layout normalization (`write_svg` lines 646-660, `__plot__` lines 1037-1045) -/

/-- Checked rational division: Python raises `ZeroDivisionError` on a zero
denominator, modelled as `none`. -/
def qdiv (a b : ℚ) : Option ℚ :=
  if b = 0 then none else some (a / b)

/-- Per-axis maximum of a layout, as the loop of lines 646-653 computes it. -/
def layoutMaxs (p0 : ℚ × ℚ) (rest : List (ℚ × ℚ)) : ℚ × ℚ :=
  rest.foldl (fun m r => (max m.1 r.1, max m.2 r.2)) p0

/-- Per-axis minimum of a layout, as the loop of lines 646-653 computes it. -/
def layoutMins (p0 : ℚ × ℚ) (rest : List (ℚ × ℚ)) : ℚ × ℚ :=
  rest.foldl (fun m r => (min m.1 r.1, min m.2 r.2)) p0

/-- Embedding of the `write_svg` normalization (lines 646-660): bounding box, then
`ratios = sizes[dim] / (maxs[dim] - mins[dim])` with NO guard against a
zero extent, then the scale/translate of every point.  `none` models the
`ZeroDivisionError` (or the `IndexError` on `layout[0]` for an empty
layout). -/
def svgNormalize (layout : List (ℚ × ℚ)) (width height vertex_size : ℚ) :
    Option (List (ℚ × ℚ)) :=
  match layout with
  | [] => none
  | p0 :: rest =>
    match qdiv (width - 2 * vertex_size)
            ((layoutMaxs p0 rest).1 - (layoutMins p0 rest).1),
          qdiv (height - 2 * vertex_size)
            ((layoutMaxs p0 rest).2 - (layoutMins p0 rest).2) with
    | some r0, some r1 =>
      some ((p0 :: rest).map fun row =>
        ((row.1 - ((layoutMaxs p0 rest).1 + (layoutMins p0 rest).1) / 2) * r0,
         (row.2 - ((layoutMaxs p0 rest).2 + (layoutMins p0 rest).2) / 2) * r1))
    | _, _ => none

/-- Embedding of the `__plot__` scale factors (lines 1037-1045): the bounding box
`sl, st, sr, sb` comes from the external `Layout.bounding_box`; `sw`/`sh`
are the extents, and a zero extent is replaced by 1 before dividing. -/
def plotRatios (bboxW bboxH maxVertexSize m0 m1 m2 m3 sl st sr sb : ℚ) :
    Option (ℚ × ℚ) :=
  match qdiv (bboxW - maxVertexSize - m1 - m3)
          (if sr - sl = 0 then 1 else sr - sl),
        qdiv (bboxH - maxVertexSize - m0 - m2)
          (if sb - st = 0 then 1 else sb - st) with
  | some rx, some ry => some (rx, ry)
  | _, _ => none

/-! ## Vertex shapes (`write_svg` lines 713-728) -/

/-- The shape element emitted for one vertex. -/
inductive SvgShapeOut
  | bichromeCircle (c1 c2 : String)
  | circle (color : String)
  | rect (color : String)
  | nothing
  deriving DecidableEq

/-- Vertex-shape drawing (lines 715-727): shape 1 draws a circle (split into
two half-discs when the color value contains a space — the undocumented
two-color feature), shape 2 draws a square of side `2*vertex_size`; any
other shape code draws nothing.  There is no error branch; the label text of
line 728 is emitted for every vertex regardless of shape. -/
def svgVertexShape (shape : Int) (color : String) : SvgShapeOut :=
  if shape = 1 then
    if pyContains color ' ' then
      SvgShapeOut.bichromeCircle ((pySplitOn color ' ').getD 0 "")
        ((pySplitOn color ' ').getD 1 "")
    else SvgShapeOut.circle color
  else if shape = 2 then SvgShapeOut.rect color
  else SvgShapeOut.nothing

/-! ## Default vertex labels of `__plot__` (lines 1094-1099) -/

/-- Embedding of the `__plot__` label selection: with no `vertex_label` keyword and no
`label` vertex attribute the labels are `map(str, xrange(vcount))` (0-based);
with `vertex_label=None` they are empty strings; otherwise they come from
the external `drawing.collect_attributes` (`none` here). -/
def plotVertexLabels (kwdPresent kwdIsNone hasLabelAttr : Bool) (vc : Nat) :
    Option (List String) :=
  if !kwdPresent && !hasLabelAttr then
    some ((List.range vc).map (fun i => toString i))
  else if kwdPresent && kwdIsNone then
    some (List.replicate vc "")
  else none

/-! ## Edge rendering (`write_svg` lines 690-706, `__plot__` lines 1053-1081) -/

/-- Embedding of `math.atan2` with the C/Python quadrant convention
(`atan2 0 0 = 0`, as in Python for positive zeros). -/
noncomputable def atan2 (y x : ℝ) : ℝ :=
  if 0 < x then Real.arctan (y / x)
  else if x < 0 ∧ 0 ≤ y then Real.arctan (y / x) + Real.pi
  else if x < 0 then Real.arctan (y / x) - Real.pi
  else if 0 < y then Real.pi / 2
  else if y < 0 then -(Real.pi / 2)
  else 0

/-- The numbers `write_svg` prints for one edge: for a directed graph a
group translated to the (shortened) endpoint holding a relative line and the
`#Triangle` reference with its rotation in degrees; for an undirected graph
a plain absolute line. -/
structure SvgEdgeOut where
  groupTranslate : Option (ℝ × ℝ)
  lineX1 : ℝ
  lineY1 : ℝ
  lineX2 : ℝ
  lineY2 : ℝ
  arrowRotDeg : Option ℝ
  color : String

/-- Embedding of the `write_svg` edge drawing (lines 690-706): the endpoint is ALWAYS pulled
back by `vertex_size` along `atan2(dy, dx)` (lines 696-698, before the
`if directed` branch); the directed branch then places the arrowhead group
at that pulled-back point with rotation `180 + angle*180/pi`. -/
noncomputable def svgEdgeRender (x1 y1 x2 y2 vertex_size : ℝ) (directed : Bool)
    (color : String) : SvgEdgeOut :=
  let angle := atan2 (y2 - y1) (x2 - x1)
  let x2s := x2 - vertex_size * Real.cos angle
  let y2s := y2 - vertex_size * Real.sin angle
  if directed then
    { groupTranslate := some (x2s, y2s), lineX1 := x1 - x2s, lineY1 := y1 - y2s,
      lineX2 := 0, lineY2 := 0,
      arrowRotDeg := some (180 + angle * 180 / Real.pi), color := color }
  else
    { groupTranslate := none, lineX1 := x1, lineY1 := y1, lineX2 := x2s,
      lineY2 := y2s, arrowRotDeg := none, color := color }

/-- Absolute x of the stroke endpoint (the group translation plus the
relative endpoint for the directed form). -/
noncomputable def SvgEdgeOut.absEndX (o : SvgEdgeOut) : ℝ :=
  match o.groupTranslate with
  | some t => t.1 + o.lineX2
  | none => o.lineX2

/-- Absolute y of the stroke endpoint. -/
noncomputable def SvgEdgeOut.absEndY (o : SvgEdgeOut) : ℝ :=
  match o.groupTranslate with
  | some t => t.2 + o.lineY2
  | none => o.lineY2

/-- What `__plot__` draws for one non-loop edge. -/
structure PlotEdgeOut where
  lineStart : ℝ × ℝ
  lineEnd : ℝ × ℝ
  arrow : Option ((ℝ × ℝ) × (ℝ × ℝ) × (ℝ × ℝ))

/-- Embedding of the `__plot__` non-loop edge drawing (lines 1064-1081): the stroke runs the
full way from source to target center (no shortening), and when directed a
triangle with apex at the target point and two base points 15 units back at
`angle ± pi/10` is filled. -/
noncomputable def plotEdgeRender (sx sy tx ty : ℝ) (directed : Bool) : PlotEdgeOut :=
  { lineStart := (sx, sy), lineEnd := (tx, ty),
    arrow :=
      if directed then
        some ((tx, ty),
          (tx - 15 * Real.cos (atan2 (ty - sy) (tx - sx) - Real.pi / 10),
           ty - 15 * Real.sin (atan2 (ty - sy) (tx - sx) - Real.pi / 10)),
          (tx - 15 * Real.cos (atan2 (ty - sy) (tx - sx) + Real.pi / 10),
           ty - 15 * Real.sin (atan2 (ty - sy) (tx - sx) + Real.pi / 10)))
      else none }

/-! ## Gzipped GraphML adapter (lines 459-512) -/

/-- Failure switches for the steps of `write_graphmlz`: `mkstemp`, the inner
`write_graphml` call, `gzip.GzipFile(f, "wb", ...)`, and the line-copy into
the gzip stream.  `some e` means the step raises `e`. -/
structure WriteGmlzEnv where
  mkstempErr : Option String
  writeGraphmlErr : Option String
  gzipOpenErr : Option String
  copyErr : Option String

/-- Failure switches for the steps of `Read_GraphMLz`: `mkstemp`,
`gzip.GzipFile(f, "rb")`, the decompressing copy, and the inner
`Read_GraphML` call (which returns a graph `G` on success). -/
structure ReadGmlzEnv (G : Type) where
  mkstempErr : Option String
  gzipOpenErr : Option String
  copyErr : Option String
  readGraphmlResult : Except String G

/-- Outcome of one adapter call: the propagated result, whether the
temporary file was created, and whether `os.unlink` ran on it. -/
structure TmpFileOutcome (α : Type) where
  result : Except String α
  tmpCreated : Bool
  tmpUnlinked : Bool

/-- The `try` body of `write_graphmlz` (lines 477-484): result plus whether
`tmpfilename` was assigned (i.e. `mkstemp` succeeded). -/
def writeGmlzBody (env : WriteGmlzEnv) : Except String Unit × Bool :=
  match env.mkstempErr with
  | some e => (Except.error e, false)
  | none =>
    match env.writeGraphmlErr with
    | some e => (Except.error e, true)
    | none =>
      match env.gzipOpenErr with
      | some e => (Except.error e, true)
      | none =>
        match env.copyErr with
        | some e => (Except.error e, true)
        | none => (Except.ok (), true)

/-- Embedding of `write_graphmlz` (lines 459-486): the `finally` clause unlinks the
temporary file exactly when `tmpfilename is not None`, i.e. when `mkstemp`
succeeded, and re-raises the body's exception unchanged (`os.unlink` itself
is taken to succeed). -/
def write_graphmlz (env : WriteGmlzEnv) : TmpFileOutcome Unit :=
  { result := (writeGmlzBody env).1,
    tmpCreated := (writeGmlzBody env).2,
    tmpUnlinked := (writeGmlzBody env).2 }

/-- The `try` body of `Read_GraphMLz` (lines 501-508). -/
def readGmlzBody {G : Type} (env : ReadGmlzEnv G) : Except String G × Bool :=
  match env.mkstempErr with
  | some e => (Except.error e, false)
  | none =>
    match env.gzipOpenErr with
    | some e => (Except.error e, true)
    | none =>
      match env.copyErr with
      | some e => (Except.error e, true)
      | none => (env.readGraphmlResult, true)

/-- Embedding of `Read_GraphMLz` (lines 488-512): same `try`/`finally` shape as
`write_graphmlz`, returning the inner reader's result after cleanup. -/
def read_GraphMLz {G : Type} (env : ReadGmlzEnv G) : TmpFileOutcome G :=
  { result := (readGmlzBody env).1,
    tmpCreated := (readGmlzBody env).2,
    tmpUnlinked := (readGmlzBody env).2 }

/-! ## C9: static extension table -/

/-- C9: for every path whose extension, compared case-insensitively, is in
the static extension table, format identification returns the extension
(lower-cased) without its leading dot, for every file content — the file is
never inspected. -/
theorem extension_table_resolution (ext : String) (content : List String)
    (h : pyLower ext ∈ extensionTable) :
    identifyFormat ext content = some (dropDot (pyLower ext)) := by
  simp [identifyFormat, h]

/-- Witness for C9: `.GraphML` resolves to the `graphml` token regardless of
content. -/
theorem extension_table_resolution_witness :
    identifyFormat ".GraphML" ["garbage content"] = some "graphml" := by
  have h := extension_table_resolution ".GraphML" ["garbage content"] (by decide)
  exact h

/-! ## C8: pajek/net have no writer -/

/-- C8: the unified write with format `pajek` — explicitly given, or
resolved from a `.pajek` or `.net` extension — raises the missing-writer
`IOError` with no filesystem action on the target, because the dispatch
table maps `pajek` and `net` to an empty writer slot. -/
theorem pajek_write_unsupported (content : List String) :
    graphWrite (some "pajek") ".net" content
      = ([], Except.error "no writer method for file format: pajek") ∧
    graphWrite none ".pajek" content
      = ([], Except.error "no writer method for file format: pajek") ∧
    graphWrite none ".net" content
      = ([], Except.error "no writer method for file format: net") ∧
    (formatMapping "pajek" = some (some "Read_Pajek", none) ∧
     formatMapping "net" = some (some "Read_Pajek", none)) := by
  exact ⟨rfl, rfl, rfl, rfl, rfl⟩

/-! ## C2: content sniffing of two-field `.txt`/`.dat` files -/

/-- C2: for a `.txt` or `.dat` file whose first line has exactly two numeric
fields and whose second line also has exactly two fields, identification
returns the edge-list token when a third line with content exists, and
returns no format when the file ends after the second line — in which case
the unified Read and write raise the unknown-format `IOError`. -/
theorem txt_sniffing_two_field_behavior (ext l1 l2 : String)
    (hext : ext = ".txt" ∨ ext = ".dat")
    (h1 : (pySplit l1).length = 2)
    (_h1n : ∀ s ∈ pySplit l1, isNumericField s = true)
    (h2 : (pySplit l2).length = 2) :
    (∀ l3 rest, pySplit l3 ≠ [] →
        identifyFormat ext (l1 :: l2 :: l3 :: rest) = some "edges") ∧
    identifyFormat ext [l1, l2] = none ∧
    graphRead none ext [l1, l2]
      = ([], Except.error "unknown file format: None") ∧
    graphWrite none ext [l1, l2]
      = ([], Except.error "unknown file format: None") := by
  have hid : ∀ content, identifyFormat ext content =
      (if (pySplit (readline content 0)).length = 2 then
        if (pySplit (readline content 1)).length = 2 then
          if (pySplit (readline content 2)).length = 0 then none
          else some "edges"
        else none
      else some "adjacency") := by
    intro content
    rcases hext with h | h <;> subst h <;>
      · rw [identifyFormat, if_neg (by decide), if_pos (by decide)]
  have hempty : pySplit "" = [] := rfl
  refine ⟨?_, ?_, ?_, ?_⟩
  · intro l3 rest h3
    rw [hid]
    simp [readline, h1, h2, List.length_eq_zero, h3]
  · rw [hid]
    simp [readline, h1, h2, hempty]
  · have : identifyFormat ext [l1, l2] = none := by
      rw [hid]; simp [readline, h1, h2, hempty]
    simp [graphRead, this]
  · have : identifyFormat ext [l1, l2] = none := by
      rw [hid]; simp [readline, h1, h2, hempty]
    simp [graphWrite, this]

/-- Witness for C2: a two-line `1 2` / `3 4` `.txt` file is unidentifiable
and a third line `5 6` makes it an edge list. -/
theorem txt_sniffing_two_field_behavior_witness :
    identifyFormat ".txt" ["1 2", "3 4", "5 6"] = some "edges" ∧
    identifyFormat ".txt" ["1 2", "3 4"] = none ∧
    graphWrite none ".txt" ["1 2", "3 4"]
      = ([], Except.error "unknown file format: None") := by
  have h := txt_sniffing_two_field_behavior ".txt" "1 2" "3 4" (Or.inl rfl)
    (by decide) (by decide) (by decide)
  exact ⟨h.1 "5 6" [] (by decide), h.2.1, h.2.2.2⟩

/-! ## C3: temporary-file cleanup in the gzipped GraphML adapter -/

/-- C3: in both `write_graphmlz` and `Read_GraphMLz`, whenever `mkstemp`
succeeds the temporary file is created and unlinked on every exit path
(success or any inner failure), and an inner failure propagates to the
caller unchanged: the first failing step's error is the call's error, and
when every step succeeds the write returns unit / the read returns exactly
the inner `Read_GraphML` result. -/
theorem graphmlz_tmpfile_cleanup {G : Type} (env : WriteGmlzEnv) (envR : ReadGmlzEnv G)
    (hw : env.mkstempErr = none) (hr : envR.mkstempErr = none) :
    ((write_graphmlz env).tmpCreated = true ∧ (write_graphmlz env).tmpUnlinked = true) ∧
    (∀ e, env.writeGraphmlErr = some e →
      (write_graphmlz env).result = Except.error e) ∧
    (∀ e, env.writeGraphmlErr = none → env.gzipOpenErr = some e →
      (write_graphmlz env).result = Except.error e) ∧
    (∀ e, env.writeGraphmlErr = none → env.gzipOpenErr = none → env.copyErr = some e →
      (write_graphmlz env).result = Except.error e) ∧
    (env.writeGraphmlErr = none → env.gzipOpenErr = none → env.copyErr = none →
      (write_graphmlz env).result = Except.ok ()) ∧
    ((read_GraphMLz envR).tmpCreated = true ∧ (read_GraphMLz envR).tmpUnlinked = true) ∧
    (∀ e, envR.gzipOpenErr = some e →
      (read_GraphMLz envR).result = Except.error e) ∧
    (∀ e, envR.gzipOpenErr = none → envR.copyErr = some e →
      (read_GraphMLz envR).result = Except.error e) ∧
    (envR.gzipOpenErr = none → envR.copyErr = none →
      (read_GraphMLz envR).result = envR.readGraphmlResult) := by
  obtain ⟨me, we, ge, ce⟩ := env
  obtain ⟨meR, geR, ceR, rr⟩ := envR
  simp only at hw hr
  subst hw hr
  refine ⟨?_, ?_, ?_, ?_, ?_, ?_, ?_, ?_, ?_⟩ <;>
    cases we <;> cases ge <;> cases ce <;> cases geR <;> cases ceR <;>
      simp_all [write_graphmlz, writeGmlzBody, read_GraphMLz, readGmlzBody]

/-- Witness for C3: with a failing inner `write_graphml` the temporary file
is still removed and the error is propagated verbatim; a fully successful
read returns the inner reader's graph. -/
theorem graphmlz_tmpfile_cleanup_witness :
    (write_graphmlz ⟨none, some "codec failure", none, none⟩).tmpUnlinked = true ∧
    (write_graphmlz ⟨none, some "codec failure", none, none⟩).result
      = Except.error "codec failure" ∧
    (read_GraphMLz ⟨none, none, none, Except.ok 7⟩).tmpUnlinked = true ∧
    (read_GraphMLz (⟨none, none, none, Except.ok 7⟩ : ReadGmlzEnv Nat)).result
      = Except.ok 7 := by
  have h := graphmlz_tmpfile_cleanup (G := Nat)
    ⟨none, some "codec failure", none, none⟩ ⟨none, none, none, Except.ok 7⟩ rfl rfl
  exact ⟨h.1.2, h.2.1 "codec failure" rfl, h.2.2.2.2.2.1.2,
    h.2.2.2.2.2.2.2.2 rfl rfl⟩

/-! ## C4: unknown shape codes (corrected)

The claim says a shape code other than 0, 1 or 2 is rejected with a
validation error.  The source's vertex loop (lines 713-729) has no error
branch at all: `if shapes[vidx] == 1: ... elif shapes[vidx] == 2: ...` with
no `else`, so every other code (including 0) silently draws no shape while
the label is still emitted. -/

/-- Counterexample for C4: shape code 3 is not rejected — the vertex is
silently omitted (no shape element), exactly what the claim says must not
happen. -/
theorem unknown_shape_counterexample :
    svgVertexShape 3 "red" = SvgShapeOut.nothing ∧
    SvgShapeOut.nothing ≠ SvgShapeOut.circle "red" ∧
    SvgShapeOut.nothing ≠ SvgShapeOut.rect "red" := by
  exact ⟨rfl, by decide, by decide⟩

/-- C4 amended: every shape code other than 1 and 2 (including 0) makes
`write_svg` silently draw no shape element for that vertex; no validation
error is raised anywhere in the vertex loop. -/
theorem unknown_shape_behavior (shape : Int) (color : String)
    (h1 : shape ≠ 1) (h2 : shape ≠ 2) :
    svgVertexShape shape color = SvgShapeOut.nothing := by
  simp [svgVertexShape, h1, h2]

/-- Witness for C4's amended theorem at shape code 5. -/
theorem unknown_shape_behavior_witness :
    svgVertexShape 5 "blue" = SvgShapeOut.nothing :=
  unknown_shape_behavior 5 "blue" (by decide) (by decide)

/-! ## C5: default vertex labels (corrected)

`write_svg` (lines 608-614) uses the 1-based ordinal `x+1` when the label
attribute is missing, but `__plot__` (lines 1094-1095) uses
`map(str, xrange(vcount))`, i.e. the 0-based ordinal as a string. -/

/-- Counterexample for C5: with no label attribute and no keyword,
`__plot__` labels the two vertices `"0"` and `"1"`, not the 1-based
`"1"`, `"2"` the claim requires of every rendering entry point. -/
theorem default_labels_counterexample :
    plotVertexLabels false false false 2 = some ["0", "1"] ∧
    (["0", "1"] : List String) ≠ ["1", "2"] := by
  exact ⟨rfl, by decide⟩

/-- C5 amended: when no label attribute or explicit value is supplied,
`write_svg` labels vertex `i` with the 1-based ordinal `i+1` while
`__plot__` labels it with the 0-based ordinal `str(i)`; when labels are
explicitly disabled (`None`), both produce empty strings for every
vertex. -/
theorem default_labels_behavior (vc : Nat) (vattrS : String → Option (List String))
    (b hA : Bool) (hattr : vattrS "label" = none) :
    svgResolveLabels (LabelsParam.attrName "label") vattrS vc
      = (List.range vc).map (fun x => SvgLabel.n (x + 1)) ∧
    svgResolveLabels LabelsParam.disabled vattrS vc
      = List.replicate vc (SvgLabel.s "") ∧
    plotVertexLabels false b false vc
      = some ((List.range vc).map (fun i => toString i)) ∧
    plotVertexLabels true true hA vc = some (List.replicate vc "") := by
  refine ⟨?_, rfl, ?_, ?_⟩
  · simp [svgResolveLabels, hattr]
  · simp [plotVertexLabels]
  · simp [plotVertexLabels]

/-- Witness for C5's amended theorem at two vertices with an empty
attribute store. -/
theorem default_labels_behavior_witness :
    svgResolveLabels (LabelsParam.attrName "label") (fun _ => none) 2
      = [SvgLabel.n 1, SvgLabel.n 2] ∧
    svgResolveLabels LabelsParam.disabled (fun _ => none) 2
      = [SvgLabel.s "", SvgLabel.s ""] ∧
    plotVertexLabels false false false 2 = some ["0", "1"] ∧
    plotVertexLabels true true false 2 = some ["", ""] := by
  have h := default_labels_behavior 2 (fun _ => none) false false rfl
  refine ⟨?_, ?_, ?_, ?_⟩
  · rw [h.1]; rfl
  · rw [h.2.1]; rfl
  · rw [h.2.2.1]; rfl
  · rw [h.2.2.2]; rfl

/-! ## C1: degenerate-layout normalization (corrected)

`__plot__` (lines 1039-1040) substitutes 1 for a zero extent before
dividing; `write_svg` (line 657) divides by `maxs[dim]-mins[dim]` with no
guard and raises `ZeroDivisionError` on a zero-extent axis. -/

/-- A coordinatewise fold over points whose first coordinates are all `c`
keeps the first coordinate at `c` when the operation is idempotent. -/
theorem foldl_fst_const (op1 op2 : ℚ → ℚ → ℚ) (c : ℚ) (hop : op1 c c = c)
    (rest : List (ℚ × ℚ)) (p : ℚ × ℚ) (hp : p.1 = c)
    (h : ∀ q ∈ rest, q.1 = c) :
    (rest.foldl (fun m r => (op1 m.1 r.1, op2 m.2 r.2)) p).1 = c := by
  induction rest generalizing p with
  | nil => exact hp
  | cons a t ih =>
    refine ih (op1 p.1 a.1, op2 p.2 a.2) ?_ (fun q hq => h q (by simp [hq]))
    have ha : a.1 = c := h a (by simp)
    simp [hp, ha, hop]

/-- Second-coordinate version of `foldl_fst_const`. -/
theorem foldl_snd_const (op1 op2 : ℚ → ℚ → ℚ) (c : ℚ) (hop : op2 c c = c)
    (rest : List (ℚ × ℚ)) (p : ℚ × ℚ) (hp : p.2 = c)
    (h : ∀ q ∈ rest, q.2 = c) :
    (rest.foldl (fun m r => (op1 m.1 r.1, op2 m.2 r.2)) p).2 = c := by
  induction rest generalizing p with
  | nil => exact hp
  | cons a t ih =>
    refine ih (op1 p.1 a.1, op2 p.2 a.2) ?_ (fun q hq => h q (by simp [hq]))
    have ha : a.2 = c := h a (by simp)
    simp [hp, ha, hop]

/-- Counterexample for C1: a two-point layout whose points share their
x-coordinate makes `write_svg`'s normalization divide by zero (`none`
models the `ZeroDivisionError`), contradicting the claim that both
rendering entry points substitute a safe default scale. -/
theorem degenerate_layout_counterexample :
    svgNormalize [(0, 0), (0, 1)] 400 400 10 = none := by
  rw [svgNormalize]
  norm_num [layoutMaxs, layoutMins, qdiv]

/-- C1 amended: only `Graph.__plot__` substitutes the safe default 1 for a
zero-extent axis — its scale computation always succeeds — while
`Graph.write_svg` divides by the raw extent and raises `ZeroDivisionError`
on every nonempty layout whose points all share an x-coordinate or all
share a y-coordinate. -/
theorem degenerate_layout_behavior
    (bw bh mvs m0 m1 m2 m3 sl st sr sb : ℚ)
    (layout : List (ℚ × ℚ)) (c w h vs : ℚ) (hne : layout ≠ []) :
    (plotRatios bw bh mvs m0 m1 m2 m3 sl st sr sb).isSome = true ∧
    ((∀ p ∈ layout, p.1 = c) → svgNormalize layout w h vs = none) ∧
    ((∀ p ∈ layout, p.2 = c) → svgNormalize layout w h vs = none) := by
  refine ⟨?_, ?_, ?_⟩
  · by_cases h1 : sr - sl = 0 <;> by_cases h2 : sb - st = 0 <;>
      simp [plotRatios, qdiv, h1, h2]
  · intro hall
    match layout, hne with
    | p0 :: rest, _ =>
      have hmax : (layoutMaxs p0 rest).1 = c :=
        foldl_fst_const max max c (max_self c) rest p0 (hall p0 (by simp))
          (fun q hq => hall q (by simp [hq]))
      have hmin : (layoutMins p0 rest).1 = c :=
        foldl_fst_const min min c (min_self c) rest p0 (hall p0 (by simp))
          (fun q hq => hall q (by simp [hq]))
      rw [svgNormalize, hmax, hmin]
      simp [qdiv]
  · intro hall
    match layout, hne with
    | p0 :: rest, _ =>
      have hmax : (layoutMaxs p0 rest).2 = c :=
        foldl_snd_const max max c (max_self c) rest p0 (hall p0 (by simp))
          (fun q hq => hall q (by simp [hq]))
      have hmin : (layoutMins p0 rest).2 = c :=
        foldl_snd_const min min c (min_self c) rest p0 (hall p0 (by simp))
          (fun q hq => hall q (by simp [hq]))
      rw [svgNormalize, hmax, hmin]
      rcases hq : qdiv (w - 2 * vs) ((layoutMaxs p0 rest).1 - (layoutMins p0 rest).1)
        with _ | r0 <;> simp [qdiv]

/-- Witness for C1's amended theorem: a vertical two-point layout breaks
`write_svg` while the `__plot__` ratios for a degenerate bounding box are
present. -/
theorem degenerate_layout_behavior_witness :
    (plotRatios 400 400 10 0 0 0 0 5 5 5 5).isSome = true ∧
    svgNormalize [(3, 0), (3, 1)] 400 400 10 = none := by
  have h := degenerate_layout_behavior 400 400 10 0 0 0 0 5 5 5 5
    [(3, 0), (3, 1)] 3 400 400 10 (by simp)
  exact ⟨h.1, h.2.1 (by decide)⟩

/-! ## Padding-loop characterization (for C10) -/

/-- Auxiliary induction (on the number of missing elements): the padding
loop appends `f len, f (len+1), ...` until the target length is reached. -/
theorem padListAux_eq_aux {α : Type} (f : Nat → α) (n : Nat) :
    ∀ l vc, vc - l.length = n →
      padListAux f l vc
        = l ++ (List.range (vc - l.length)).map (fun j => f (l.length + j)) := by
  induction n with
  | zero =>
    intro l vc h
    have h2 : ¬ l.length < vc := by omega
    rw [padListAux]
    simp [h2, h]
  | succ k ih =>
    intro l vc h
    have hlt : l.length < vc := by omega
    rw [padListAux]
    rw [dif_pos hlt]
    rw [ih (l ++ [f l.length]) vc (by simp; omega)]
    have hlen : (l ++ [f l.length]).length = l.length + 1 := by simp
    rw [hlen]
    have h1 : vc - l.length = k + 1 := h
    have h2 : vc - (l.length + 1) = k := by omega
    rw [h1, h2, List.range_succ_eq_map]
    have hfun : (fun j => f (l.length + 1 + j)) = (fun j => f (l.length + (j + 1))) := by
      funext j
      congr 1
      omega
    simp [List.map_map, Function.comp, hfun]

/-- Closed form of the padding loop. -/
theorem padListAux_eq {α : Type} (f : Nat → α) (l : List α) (vc : Nat) :
    padListAux f l vc
      = l ++ (List.range (vc - l.length)).map (fun j => f (l.length + j)) :=
  padListAux_eq_aux f (vc - l.length) l vc rfl

/-- The padding loop never shortens the list. -/
theorem padListAux_length {α : Type} (f : Nat → α) (l : List α) (vc : Nat) :
    (padListAux f l vc).length = max l.length vc := by
  rw [padListAux_eq]
  simp
  omega

/-- The original elements survive as a prefix. -/
theorem padListAux_take {α : Type} (f : Nat → α) (l : List α) (vc : Nat) :
    (padListAux f l vc).take l.length = l := by
  rw [padListAux_eq]
  exact List.take_left l _

/-- Every padded position `i` holds `f i`. -/
theorem padListAux_getElem {α : Type} (f : Nat → α) (l : List α) (vc i : Nat)
    (h1 : l.length ≤ i) (h2 : i < vc) :
    (padListAux f l vc)[i]? = some (f i) := by
  rw [padListAux_eq]
  rw [List.getElem?_append_right h1]
  have hi : i - l.length < vc - l.length := by omega
  rw [List.getElem?_map]
  rw [List.getElem?_range hi]
  simp
  congr 1
  omega

/-- A list already long enough is returned unchanged. -/
theorem padListAux_of_le {α : Type} (f : Nat → α) (l : List α) (vc : Nat)
    (h : vc ≤ l.length) : padListAux f l vc = l := by
  rw [padListAux]
  simp [Nat.not_lt.mpr h]

/-! ## C10: padding of explicit labels/colors lists in `write_svg` -/

/-- C10: with explicitly supplied lists, `write_svg` pads a short labels
list by appending successive 1-based ordinals (index `i` receives `i+1`)
and a short colors list with `"red"`, up to the vertex count; lists at
least as long as the vertex count pass through unchanged (never
truncated), and the shapes and edge-colors lists are used exactly as
supplied with no padding at all. -/
theorem svg_explicit_list_padding (fname : String) (l : List SvgLabel)
    (cols : List String) (shp : List Int) (ecols : List String)
    (vattrS : String → Option (List String)) (vattrZ : String → Option (List Int))
    (eattrS : String → Option (List String)) (vc ec : Nat) :
    (∃ r, (writeSvgPrelude fname (some 400) (some 400) (LabelsParam.explicit l)
        (ListParam.explicit cols) (ListParam.explicit shp)
        (ListParam.explicit ecols) (FontSize.num 16) vattrS vattrZ eattrS vc ec).2
        = Except.ok r ∧
      r.labels = padLabels l vc ∧ r.colors = padColors cols vc ∧
      r.shapes = shp ∧ r.edgeColors = ecols) ∧
    (padLabels l vc).length = max l.length vc ∧
    (padLabels l vc).take l.length = l ∧
    (∀ i, l.length ≤ i → i < vc → (padLabels l vc)[i]? = some (SvgLabel.n (i + 1))) ∧
    (vc ≤ l.length → padLabels l vc = l) ∧
    (padColors cols vc).length = max cols.length vc ∧
    (padColors cols vc).take cols.length = cols ∧
    (∀ i, cols.length ≤ i → i < vc → (padColors cols vc)[i]? = some "red") ∧
    (vc ≤ cols.length → padColors cols vc = cols) := by
  refine ⟨⟨SvgResolved.mk 400 400 (padLabels l vc) (padColors cols vc) shp ecols
      (toString (16 : ℚ) ++ "px"), ?_, rfl, rfl, rfl, rfl⟩,
    padListAux_length _ l vc, padListAux_take _ l vc,
    fun i h1 h2 => padListAux_getElem _ l vc i h1 h2,
    fun h => padListAux_of_le _ l vc h,
    padListAux_length _ cols vc, padListAux_take _ cols vc,
    fun i h1 h2 => padListAux_getElem _ cols vc i h1 h2,
    fun h => padListAux_of_le _ cols vc h⟩
  rw [writeSvgPrelude, if_neg (by norm_num [effectiveDims])]
  rfl

/-- Witness for C10: one explicit label and no explicit colors, padded to
three vertices. -/
theorem svg_explicit_list_padding_witness :
    (padLabels [SvgLabel.s "a"] 3).length = 3 ∧
    (padLabels [SvgLabel.s "a"] 3)[1]? = some (SvgLabel.n 2) ∧
    (padLabels [SvgLabel.s "a"] 3)[2]? = some (SvgLabel.n 3) ∧
    (padColors [] 3)[0]? = some "red" ∧
    padLabels [SvgLabel.s "a", SvgLabel.s "b"] 1 = [SvgLabel.s "a", SvgLabel.s "b"] := by
  have h := svg_explicit_list_padding "f" [SvgLabel.s "a"] [] [5] ["b"]
    (fun _ => none) (fun _ => none) (fun _ => none) 3 1
  have h2 := svg_explicit_list_padding "f" [SvgLabel.s "a", SvgLabel.s "b"] [] [] []
    (fun _ => none) (fun _ => none) (fun _ => none) 1 0
  refine ⟨?_, ?_, ?_, ?_, ?_⟩
  · rw [h.2.1]; rfl
  · exact h.2.2.2.1 1 (by decide) (by decide)
  · exact h.2.2.2.1 2 (by decide) (by decide)
  · exact h.2.2.2.2.2.2.2.1 0 (by decide) (by decide)
  · exact h2.2.2.2.2.1 (by decide)

/-! ## C7: validation precedes any output in `write_svg` -/

/-- C7: `write_svg` raises its validation errors — a non-positive effective
width or height after defaulting, or a string font size containing a
semicolon — before any drawing output: on a validation failure the target
file is never opened (the file-operation trace is empty). -/
theorem svg_validation_before_output (fname : String) (width height : Option ℚ)
    (labels : LabelsParam) (colors : ListParam String) (shapes : ListParam Int)
    (edgeColors : ListParam String) (fontSize : FontSize)
    (vattrS : String → Option (List String)) (vattrZ : String → Option (List Int))
    (eattrS : String → Option (List String)) (vc ec : Nat)
    (hbad : (effectiveDims width height).1 ≤ 0 ∨ (effectiveDims width height).2 ≤ 0 ∨
      (∃ s, fontSize = FontSize.str s ∧ pyContains s ';' = true)) :
    ∃ e, writeSvgPrelude fname width height labels colors shapes edgeColors fontSize
        vattrS vattrZ eattrS vc ec = ([], Except.error e) := by
  rw [writeSvgPrelude]
  by_cases hd : (effectiveDims width height).1 ≤ 0 ∨ (effectiveDims width height).2 ≤ 0
  · exact ⟨_, by rw [if_pos hd]⟩
  · rcases hbad with h | h | ⟨s, hs, hsemi⟩
    · exact absurd (Or.inl h) hd
    · exact absurd (Or.inr h) hd
    · rw [if_neg hd]
      subst hs
      simp [resolveFontSize, hsemi]

/-- Witness for C7: an explicit zero width (height inherited) and a
semicolon-bearing font size are each rejected with the file never
opened. -/
theorem svg_validation_before_output_witness :
    (∃ e, writeSvgPrelude "g.svg" (some 0) none LabelsParam.disabled
        (ListParam.explicit []) (ListParam.explicit []) (ListParam.explicit [])
        (FontSize.num 16) (fun _ => none) (fun _ => none) (fun _ => none) 0 0
        = ([], Except.error e)) ∧
    (∃ e, writeSvgPrelude "g.svg" none none LabelsParam.disabled
        (ListParam.explicit []) (ListParam.explicit []) (ListParam.explicit [])
        (FontSize.str "16px;malicious") (fun _ => none) (fun _ => none)
        (fun _ => none) 0 0
        = ([], Except.error e)) := by
  constructor
  · exact svg_validation_before_output "g.svg" (some 0) none LabelsParam.disabled
      (ListParam.explicit []) (ListParam.explicit []) (ListParam.explicit [])
      (FontSize.num 16) (fun _ => none) (fun _ => none) (fun _ => none) 0 0
      (Or.inl (by norm_num [effectiveDims]))
  · exact svg_validation_before_output "g.svg" none none LabelsParam.disabled
      (ListParam.explicit []) (ListParam.explicit []) (ListParam.explicit [])
      (FontSize.str "16px;malicious") (fun _ => none) (fun _ => none) (fun _ => none) 0 0
      (Or.inr (Or.inr ⟨"16px;malicious", rfl, by decide⟩))

/-! ## C6: edge shortening and arrowhead placement (corrected)

`write_svg` pulls the endpoint back by `vertex_size` for EVERY edge —
lines 697-698 run before the `if directed` branch — and the directed
arrowhead group is translated to that pulled-back point, not the original
endpoint.  `__plot__` never shortens the stroke and its arrowhead apex is
the original target point. -/

/-- Counterexample for C6: for the undirected horizontal edge
`(0,0) -> (4,0)` with vertex size 1, `write_svg` prints the stroke endpoint
`x2 = 3`, not the unshortened `4` the claim requires when the graph is not
directed; and for the same directed edge the arrowhead group sits at the
shortened point `(3, 0)`, not the original endpoint `(4, 0)`. -/
theorem edge_shortening_counterexample :
    (svgEdgeRender 0 0 4 0 1 false "black").lineX2 = 3 ∧
    (svgEdgeRender 0 0 4 0 1 false "black").lineX2 ≠ 4 ∧
    (svgEdgeRender 0 0 4 0 1 true "black").groupTranslate = some (3, 0) ∧
    ((3 : ℝ), (0 : ℝ)) ≠ ((4 : ℝ), (0 : ℝ)) := by
  have hθ : atan2 ((0 : ℝ) - 0) ((4 : ℝ) - 0) = 0 := by
    rw [atan2, if_pos (by norm_num)]
    norm_num
  have h3 : (4 : ℝ) - 1 * Real.cos (atan2 ((0 : ℝ) - 0) ((4 : ℝ) - 0)) = 3 := by
    rw [hθ, Real.cos_zero]
    norm_num
  have h0 : (0 : ℝ) - 1 * Real.sin (atan2 ((0 : ℝ) - 0) ((4 : ℝ) - 0)) = 0 := by
    rw [hθ, Real.sin_zero]
    norm_num
  refine ⟨?_, ?_, ?_, ?_⟩
  · show (4 : ℝ) - 1 * Real.cos (atan2 ((0 : ℝ) - 0) ((4 : ℝ) - 0)) = 3
    exact h3
  · show (4 : ℝ) - 1 * Real.cos (atan2 ((0 : ℝ) - 0) ((4 : ℝ) - 0)) ≠ 4
    rw [h3]
    norm_num
  · show some ((4 : ℝ) - 1 * Real.cos (atan2 ((0 : ℝ) - 0) ((4 : ℝ) - 0)),
        (0 : ℝ) - 1 * Real.sin (atan2 ((0 : ℝ) - 0) ((4 : ℝ) - 0)))
      = some ((3 : ℝ), (0 : ℝ))
    rw [h3, h0]
  · intro hcontra
    have : (3 : ℝ) = 4 := congrArg Prod.fst hcontra
    norm_num at this

/-- C6 amended: for every edge `(u,v)` both branches of `write_svg` use the
same pulled-back endpoint — the undirected stroke endpoint equals the point
the directed arrowhead group is translated to — and that point lies at
squared distance `vertex_size^2` from the original endpoint along the angle
`atan2(dy,dx)`; the directed rotation printed is `180 + angle*180/pi`
degrees; `__plot__`, by contrast, draws the full-length stroke to the
original target and puts the directed arrowhead apex exactly there. -/
theorem edge_shortening_behavior (x1 y1 x2 y2 vs : ℝ) (col : String) :
    ((svgEdgeRender x1 y1 x2 y2 vs false col).lineX2
        = x2 - vs * Real.cos (atan2 (y2 - y1) (x2 - x1)) ∧
     (svgEdgeRender x1 y1 x2 y2 vs false col).lineY2
        = y2 - vs * Real.sin (atan2 (y2 - y1) (x2 - x1))) ∧
    (svgEdgeRender x1 y1 x2 y2 vs true col).groupTranslate
      = some ((svgEdgeRender x1 y1 x2 y2 vs false col).lineX2,
              (svgEdgeRender x1 y1 x2 y2 vs false col).lineY2) ∧
    (x2 - (svgEdgeRender x1 y1 x2 y2 vs false col).lineX2) ^ 2 +
      (y2 - (svgEdgeRender x1 y1 x2 y2 vs false col).lineY2) ^ 2 = vs ^ 2 ∧
    (svgEdgeRender x1 y1 x2 y2 vs true col).arrowRotDeg
      = some (180 + atan2 (y2 - y1) (x2 - x1) * 180 / Real.pi) ∧
    (svgEdgeRender x1 y1 x2 y2 vs true col).absEndX
      = (svgEdgeRender x1 y1 x2 y2 vs false col).lineX2 ∧
    (svgEdgeRender x1 y1 x2 y2 vs true col).absEndY
      = (svgEdgeRender x1 y1 x2 y2 vs false col).lineY2 ∧
    (plotEdgeRender x1 y1 x2 y2 true).lineEnd = (x2, y2) ∧
    (plotEdgeRender x1 y1 x2 y2 false).lineEnd = (x2, y2) ∧
    (plotEdgeRender x1 y1 x2 y2 true).arrow.map (fun a => a.1) = some (x2, y2) ∧
    (plotEdgeRender x1 y1 x2 y2 false).arrow = none := by
  refine ⟨⟨rfl, rfl⟩, rfl, ?_, rfl, ?_, ?_, rfl, rfl, by simp [plotEdgeRender], rfl⟩
  · show (x2 - (x2 - vs * Real.cos (atan2 (y2 - y1) (x2 - x1)))) ^ 2 +
      (y2 - (y2 - vs * Real.sin (atan2 (y2 - y1) (x2 - x1)))) ^ 2 = vs ^ 2
    have h := Real.sin_sq_add_cos_sq (atan2 (y2 - y1) (x2 - x1))
    nlinarith [h]
  · show (svgEdgeRender x1 y1 x2 y2 vs true col).absEndX = _
    simp [svgEdgeRender, SvgEdgeOut.absEndX]
  · show (svgEdgeRender x1 y1 x2 y2 vs true col).absEndY = _
    simp [svgEdgeRender, SvgEdgeOut.absEndY]

end IGraph
